import Mathlib

/-!
Shallow embedding of `src/lab/personal/context_manager.py`, a personal
context manager that keeps titled records in an in-memory mapping mirrored
to a JSON file.  Python strings are modelled as lists of characters,
Python dicts as insertion-ordered association lists (assignment to an
existing key replaces in place, a new key is appended, exactly as CPython
dicts behave), aware UTC datetimes as natural numbers counting
microseconds since the epoch, and JSON-compatible values as a `Json`
tree.  `json.dump` followed by `json.load` is modelled as the identity on
the `Json` tree, and `datetime.isoformat` as an injective decimal
rendering of the microsecond count (the calendar layout of the ISO-8601
string is irrelevant to the claims, which depend only on the rendering
being injective and exactly invertible by `fromisoformat`).
-/

namespace CtxMgr

/-- Python strings, modelled as lists of characters. -/
abbrev PyStr := List Char

/-- Coercion from Lean string literals to the Python-string model. -/
def pystr (s : String) : PyStr := s.toList

/-- The `ContextType(str, Enum)` of the source: the six context types. -/
inductive ContextType where
  | conversation
  | decision
  | project
  | task
  | insight
  | relationship
deriving DecidableEq, Repr, Fintype

/-- The `.value` string behind each `ContextType` member. -/
def ContextType.value : ContextType → PyStr
  | .conversation => pystr "conversation"
  | .decision => pystr "decision"
  | .project => pystr "project"
  | .task => pystr "task"
  | .insight => pystr "insight"
  | .relationship => pystr "relationship"

/-- The enum constructor call `ContextType(s)`: `some` member on a valid
value string, `none` models the `ValueError` raised on anything else. -/
def ContextType.ofValue (s : PyStr) : Option ContextType :=
  if s = pystr "conversation" then some .conversation
  else if s = pystr "decision" then some .decision
  else if s = pystr "project" then some .project
  else if s = pystr "task" then some .task
  else if s = pystr "insight" then some .insight
  else if s = pystr "relationship" then some .relationship
  else none

/-- The `Priority(str, Enum)` of the source: the four priority levels. -/
inductive Priority where
  | critical
  | high
  | medium
  | low
deriving DecidableEq, Repr, Fintype

/-- The `.value` string behind each `Priority` member. -/
def Priority.value : Priority → PyStr
  | .critical => pystr "critical"
  | .high => pystr "high"
  | .medium => pystr "medium"
  | .low => pystr "low"

/-- The enum constructor call `Priority(s)`; `none` models `ValueError`. -/
def Priority.ofValue (s : PyStr) : Option Priority :=
  if s = pystr "critical" then some .critical
  else if s = pystr "high" then some .high
  else if s = pystr "medium" then some .medium
  else if s = pystr "low" then some .low
  else none

/-- An aware UTC datetime, as microseconds since the Unix epoch. -/
abbrev Datetime := Nat

/-- A JSON-compatible Python value (`None`, `bool`, number, `str`,
`list`, `dict` with string keys). -/
inductive Json where
  | null
  | bool (b : Bool)
  | num (n : Int)
  | str (s : PyStr)
  | arr (elems : List Json)
  | obj (fields : List (PyStr × Json))

/-- An insertion-ordered Python dict with string keys. -/
abbrev PyDict (β : Type) := List (PyStr × β)

/-- Python `d.get(key)` / `d[key]`: the value at the first (hence only,
for a genuine dict) occurrence of the key. -/
def alookup {α β : Type} [DecidableEq α] : List (α × β) → α → Option β
  | [], _ => none
  | (k, v) :: d, key => if k = key then some v else alookup d key

/-- Python `d[key] = val`: replace the value at an existing key in place
(keeping its position), or append a new key at the end. -/
def dinsert {α β : Type} [DecidableEq α] :
    List (α × β) → α → β → List (α × β)
  | [], key, val => [(key, val)]
  | (k, v) :: d, key, val =>
      if k = key then (k, val) :: d else (k, v) :: dinsert d key val

/-- Python `d.update(m)`: assign every key of `m`, in order, into `d`. -/
def dupdate {α β : Type} [DecidableEq α] (d m : List (α × β)) :
    List (α × β) :=
  m.foldl (fun acc kv => dinsert acc kv.1 kv.2) d

/-- The `ContextItem` dataclass: one stored context record. -/
structure ContextItem where
  id : PyStr
  type : ContextType
  title : PyStr
  content : PyStr
  priority : Priority
  created_at : Datetime
  updated_at : Datetime
  tags : List PyStr
  connections : List PyStr
  metadata : PyDict Json

/-- The in-memory state of `ContextManager`: the dict `self.contexts`
mapping record ID to record. -/
abbrev Store := PyDict ContextItem

/-- The decimal digit character for `d < 10` (code point `48 + d`). -/
def digitChar (d : Nat) : Char := Char.ofNat (48 + d)

/-- Read a decimal digit character back; `none` on a non-digit. -/
def charDigit (c : Char) : Option Nat :=
  if 48 ≤ c.toNat ∧ c.toNat ≤ 57 then some (c.toNat - 48) else none

/-- Little-endian decimal digits of a natural number, written with
explicit fuel so that closed instances reduce inside the kernel. -/
def natDigitsRev (n : Nat) : List Nat := go n n
where
  go : Nat → Nat → List Nat
  | 0, _ => []
  | fuel + 1, m => if m = 0 then [] else m % 10 :: go fuel (m / 10)

/-- Big-endian decimal rendering of a natural number. -/
def natChars (n : Nat) : PyStr := (natDigitsRev n).reverse.map digitChar

/-- Modelled `now.strftime` of the ID pattern: an injective rendering of
the wall-clock second (`YYYYMMDD_HHMMSS` in the source; its injectivity
as a function of the UTC second is all the claims use). -/
def strftimeSeconds (t : Datetime) : PyStr := natChars (t / 1000000)

/-- The ID built by `add_context`: `{type}_{second-resolution timestamp}`. -/
def mkContextId (context_type : ContextType) (now : Datetime) : PyStr :=
  context_type.value ++ pystr "_" ++ strftimeSeconds now

/-- The `add_context` tool at value level, for a call whose arguments
are all explicitly supplied: builds the record from them, stores it
under the generated ID (`ContextManager.add_context` line 117 assigns
`self.contexts[context.id] = context`) and returns the new ID (the
tool's confirmation string carries exactly this ID).  This value-level
transition does NOT cover omitting the optional arguments: the source's
defaults `tags=[]`, `connections=[]`, `metadata={}` are objects created
once at function definition time and shared between calls, and
`metadata` is mutated in place by `update_context`, so omission is
modelled separately by `add_context_obj` in the object-semantics
section below. -/
def add_context (st : Store) (now : Datetime) (title content : PyStr)
    (context_type : ContextType) (priority : Priority)
    (tags connections : List PyStr) (metadata : PyDict Json) :
    PyStr × Store :=
  let context_id := mkContextId context_type now
  let item : ContextItem :=
    { id := context_id, type := context_type, title := title,
      content := content, priority := priority, created_at := now,
      updated_at := now, tags := tags, connections := connections,
      metadata := metadata }
  (context_id, dinsert st context_id item)

/-- The `ContextManager.get_context` lookup, `self.contexts.get(id)`;
`get_context_details` renders exactly this record or the not-found
message when it is `none`. -/
def get_context (st : Store) (context_id : PyStr) : Option ContextItem :=
  alookup st context_id

/-- The `update_context` tool: `none` and the untouched store model the
not-found message; on success each provided field overwrites the old
value, provided `metadata` is merged by `dict.update`, `updated_at` is
refreshed to `now`, and the (mutated-in-place) record stays at its key. -/
def update_context (st : Store) (context_id : PyStr)
    (title content : Option PyStr) (priority : Option Priority)
    (tags connections : Option (List PyStr))
    (metadata : Option (PyDict Json)) (now : Datetime) :
    Option ContextItem × Store :=
  match alookup st context_id with
  | none => (none, st)
  | some c =>
      let c1 : ContextItem :=
        { c with
          title := title.getD c.title,
          content := content.getD c.content,
          priority := priority.getD c.priority,
          tags := tags.getD c.tags,
          connections := connections.getD c.connections,
          metadata := match metadata with
            | some m => dupdate c.metadata m
            | none => c.metadata,
          updated_at := now }
      (some c1, dinsert st context_id c1)

theorem alookup_dinsert_self {α β : Type} [DecidableEq α]
    (d : List (α × β)) (k : α) (v : β) :
    alookup (dinsert d k v) k = some v := by
  induction d with
  | nil => simp [dinsert, alookup]
  | cons hd tl ih =>
      obtain ⟨k0, v0⟩ := hd
      by_cases h : k0 = k
      · simp [dinsert, alookup, h]
      · simp [dinsert, alookup, h, ih]

theorem alookup_dinsert_ne {α β : Type} [DecidableEq α]
    (d : List (α × β)) (k key : α) (v : β) (h : k ≠ key) : alookup (dinsert d k v) key = alookup d key := by
  induction d with
  | nil => simp [dinsert, alookup, h]
  | cons hd tl ih =>
      obtain ⟨k0, v0⟩ := hd
      by_cases h0 : k0 = k
      · subst h0
        simp [dinsert, alookup, h]
      · simp [dinsert, alookup, h0, ih]

/-- Supporting lemma at value level: `add_context` with every argument
explicitly supplied, followed by `get_context` (the lookup behind
`get_details`) on the returned ID, yields a record whose type, title,
content, priority, tags, connections and metadata equal the arguments,
with both timestamps the creation instant.  The omitted-argument case
is deliberately NOT an instance of this statement — the source's
`metadata={}` default is one shared mutable dict object, and what a
record created with `metadata` omitted actually holds is settled
against the object-semantics model below. -/
theorem add_then_get_details (st : Store) (now : Datetime)
    (title content : PyStr) (context_type : ContextType)
    (priority : Priority) (tags connections : List PyStr)
    (metadata : PyDict Json) :
    get_context (add_context st now title content context_type priority
        tags connections metadata).2
      (add_context st now title content context_type priority
        tags connections metadata).1 =
      some { id := mkContextId context_type now, type := context_type,
             title := title, content := content, priority := priority,
             created_at := now, updated_at := now, tags := tags,
             connections := connections, metadata := metadata } := by
  simp [add_context, get_context, alookup_dinsert_self]

/-- C4: `update_context` on an ID absent from the store, with any
combination of optional field arguments, returns the not-found signal and
leaves the store exactly as it was (same size, no record modified). -/
theorem update_missing_id (st : Store) (context_id : PyStr)
    (title content : Option PyStr) (priority : Option Priority)
    (tags connections : Option (List PyStr))
    (metadata : Option (PyDict Json)) (now : Datetime)
    (h : alookup st context_id = none) :
    update_context st context_id title content priority tags connections
      metadata now = (none, st) := by
  simp [update_context, h]

/-- Witness for C4 at a concrete input: the empty store has no record
with ID "task_0", and updating it returns not-found with the store
unchanged. -/
theorem update_missing_id_witness :
    update_context ([] : Store) (pystr "task_0") none none none none none
      (some [(pystr "k", Json.str (pystr "v"))]) 5 = (none, []) :=
  update_missing_id [] (pystr "task_0") none none none none none
    (some [(pystr "k", Json.str (pystr "v"))]) 5 (by rfl)

/-- Python `s.lower()`, character by character. -/
def lowerStr (s : PyStr) : PyStr := s.map Char.toLower

/-- Prefix test on character lists (helper for substring containment). -/
def startsWith : PyStr → PyStr → Bool
  | [], _ => true
  | _ :: _, [] => false
  | c :: q, d :: s => c == d && startsWith q s

/-- Python `q in s` on strings: `q` occurs as a contiguous substring. -/
def containsSub : PyStr → PyStr → Bool
  | q, [] => startsWith q []
  | q, c :: r => startsWith q (c :: r) || containsSub q r

/-- The match test of the `search_contexts` loop for one record: the
lowercased query occurs in the lowercased title, the lowercased content,
or some lowercased tag. -/
def matchesQuery (query_lower : PyStr) (c : ContextItem) : Bool :=
  containsSub query_lower (lowerStr c.title) ||
  containsSub query_lower (lowerStr c.content) ||
  c.tags.any fun tag => containsSub query_lower (lowerStr tag)

/-- The filter at the top of the search loop, `if context_type and
context.type != context_type: continue` (every enum member is a
non-empty string, hence truthy). -/
def typeMatches (context_type : Option ContextType) (c : ContextItem) :
    Bool :=
  match context_type with
  | none => true
  | some t => decide (c.type = t)

/-- Insertion step of the model of Python `sorted` with
`key=lambda x: x.updated_at, reverse=True`: place `x` before the first
strictly older element (so the sort is stable). -/
def insDesc (x : ContextItem) : List ContextItem → List ContextItem
  | [] => [x]
  | y :: ys =>
      if y.updated_at ≤ x.updated_at then x :: y :: ys
      else y :: insDesc x ys

/-- Stable sort by `updated_at` descending. -/
def sortDesc (l : List ContextItem) : List ContextItem :=
  l.foldr insDesc []

/-- The `ContextManager.search_contexts` method: keep the records passing
the type filter and the substring match, in iteration order, then sort by
`updated_at` descending. -/
def search_contexts (st : Store) (query : PyStr)
    (context_type : Option ContextType) : List ContextItem :=
  sortDesc ((st.map Prod.snd).filter fun c =>
    typeMatches context_type c && matchesQuery (lowerStr query) c)

theorem perm_insDesc (x : ContextItem) (l : List ContextItem) :
    List.Perm (insDesc x l) (x :: l) := by
  induction l with
  | nil => simp [insDesc]
  | cons y ys ih =>
      by_cases h : y.updated_at ≤ x.updated_at
      · simp [insDesc, h]
      · simp only [insDesc, if_neg h]
        exact (List.Perm.cons y ih).trans (List.Perm.swap x y ys)

theorem perm_sortDesc (l : List ContextItem) :
    List.Perm (sortDesc l) l := by
  induction l with
  | nil => simp [sortDesc]
  | cons a l ih =>
      exact (perm_insDesc a (sortDesc l)).trans (List.Perm.cons a ih)

theorem mem_insDesc (a x : ContextItem) (l : List ContextItem) :
    a ∈ insDesc x l ↔ a = x ∨ a ∈ l := by
  rw [(perm_insDesc x l).mem_iff]
  simp

theorem sorted_insDesc (x : ContextItem) (l : List ContextItem)
    (h : l.Pairwise fun a b => b.updated_at ≤ a.updated_at) :
    (insDesc x l).Pairwise fun a b => b.updated_at ≤ a.updated_at := by
  induction l with
  | nil => simp [insDesc]
  | cons y ys ih =>
      rw [List.pairwise_cons] at h
      by_cases hle : y.updated_at ≤ x.updated_at
      · simp only [insDesc, if_pos hle, List.pairwise_cons]
        refine ⟨?_, h.1, h.2⟩
        intro b hb
        rcases List.mem_cons.mp hb with rfl | hb
        · exact hle
        · exact (h.1 b hb).trans hle
      · simp only [insDesc, if_neg hle, List.pairwise_cons]
        refine ⟨?_, ih h.2⟩
        intro b hb
        rcases (mem_insDesc b x ys).mp hb with rfl | hb
        · exact Nat.le_of_lt (Nat.lt_of_not_le hle)
        · exact h.1 b hb

theorem sorted_sortDesc (l : List ContextItem) :
    (sortDesc l).Pairwise fun a b => b.updated_at ≤ a.updated_at := by
  induction l with
  | nil => simp [sortDesc]
  | cons a l ih => exact sorted_insDesc a (sortDesc l) ih

/-- C6: for every query, type filter and store, `search_contexts`
returns exactly the stored records in which the query occurs as a
case-insensitive substring of the title, of the content, or of at least
one tag (restricted to the given type when a filter is supplied), and
its result is sorted by `updated_at` in descending order. -/
theorem search_exact_and_sorted (st : Store) (query : PyStr)
    (context_type : Option ContextType) :
    (∀ c, c ∈ search_contexts st query context_type ↔
      c ∈ st.map Prod.snd ∧
      (∀ t, context_type = some t → c.type = t) ∧
      (containsSub (lowerStr query) (lowerStr c.title) = true ∨
       containsSub (lowerStr query) (lowerStr c.content) = true ∨
       ∃ tag ∈ c.tags,
         containsSub (lowerStr query) (lowerStr tag) = true)) ∧
    (search_contexts st query context_type).Pairwise
      (fun a b => b.updated_at ≤ a.updated_at) := by
  constructor
  · intro c
    unfold search_contexts
    rw [(perm_sortDesc _).mem_iff, List.mem_filter]
    refine and_congr_right fun _ => ?_
    rw [Bool.and_eq_true]
    cases context_type with
    | none =>
        simp [typeMatches, matchesQuery, or_assoc]
    | some t =>
        simp [typeMatches, matchesQuery, or_assoc]
  · exact sorted_sortDesc _

/-- Size of the store, Python `len(self.contexts)`. -/
def storeSize (st : Store) : Nat := st.length

theorem length_dinsert_of_found {α β : Type} [DecidableEq α]
    (d : List (α × β)) (k : α) (v : β) (h : alookup d k ≠ none) :
    (dinsert d k v).length = d.length := by
  induction d with
  | nil => simp [alookup] at h
  | cons hd tl ih =>
      obtain ⟨k0, v0⟩ := hd
      by_cases h0 : k0 = k
      · simp [dinsert, h0]
      · simp only [alookup, if_neg h0] at h
        simp [dinsert, h0, ih h]

/-- C3: two `add_context` calls with the same type whose creation times
fall in the same wall-clock second generate the same ID (of the form
`{type}_{second-resolution timestamp}`); the second call overwrites the
first record — looking the shared ID up afterwards yields the second
record — and the store size after the second add equals the size after
the first (it did not grow by two). -/
theorem add_same_second_collides (st : Store) (t1 t2 : Datetime)
    (hsec : t1 / 1000000 = t2 / 1000000) (context_type : ContextType)
    (ti1 co1 ti2 co2 : PyStr) (pr1 pr2 : Priority)
    (tg1 cn1 tg2 cn2 : List PyStr) (md1 md2 : PyDict Json) :
    (add_context st t1 ti1 co1 context_type pr1 tg1 cn1 md1).1 =
        mkContextId context_type t1 ∧
    (add_context (add_context st t1 ti1 co1 context_type pr1 tg1 cn1
          md1).2 t2 ti2 co2 context_type pr2 tg2 cn2 md2).1 =
      (add_context st t1 ti1 co1 context_type pr1 tg1 cn1 md1).1 ∧
    get_context (add_context (add_context st t1 ti1 co1 context_type pr1
          tg1 cn1 md1).2 t2 ti2 co2 context_type pr2 tg2 cn2 md2).2
        (add_context st t1 ti1 co1 context_type pr1 tg1 cn1 md1).1 =
      some { id := mkContextId context_type t2, type := context_type,
             title := ti2, content := co2, priority := pr2,
             created_at := t2, updated_at := t2, tags := tg2,
             connections := cn2, metadata := md2 } ∧
    storeSize (add_context (add_context st t1 ti1 co1 context_type pr1
          tg1 cn1 md1).2 t2 ti2 co2 context_type pr2 tg2 cn2 md2).2 =
      storeSize (add_context st t1 ti1 co1 context_type pr1 tg1 cn1
          md1).2 := by
  have hid : mkContextId context_type t2 = mkContextId context_type t1 := by
    unfold mkContextId strftimeSeconds
    rw [hsec]
  refine ⟨rfl, hid, ?_, ?_⟩
  · simp only [add_context, get_context]
    rw [hid, alookup_dinsert_self]
  · simp only [add_context, storeSize]
    apply length_dinsert_of_found
    rw [hid, alookup_dinsert_self]
    simp

/-- Witness for C3 at concrete inputs: creation instants 0 and 999999
microseconds lie in the same second, the two task records collide on one
ID, the second overwrites the first, and the sizes agree. -/
theorem add_same_second_collides_witness :
    (add_context ([] : Store) 0 (pystr "a") (pystr "x") ContextType.task
        Priority.medium [] [] []).1 = mkContextId ContextType.task 0 ∧
    (add_context (add_context ([] : Store) 0 (pystr "a") (pystr "x")
          ContextType.task Priority.medium [] [] []).2 999999 (pystr "b")
        (pystr "y") ContextType.task Priority.low [] [] []).1 =
      (add_context ([] : Store) 0 (pystr "a") (pystr "x")
          ContextType.task Priority.medium [] [] []).1 ∧
    get_context (add_context (add_context ([] : Store) 0 (pystr "a")
          (pystr "x") ContextType.task Priority.medium [] [] []).2 999999
        (pystr "b") (pystr "y") ContextType.task Priority.low [] []
        []).2
        (add_context ([] : Store) 0 (pystr "a") (pystr "x")
          ContextType.task Priority.medium [] [] []).1 =
      some { id := mkContextId ContextType.task 999999,
             type := ContextType.task, title := pystr "b",
             content := pystr "y", priority := Priority.low,
             created_at := 999999, updated_at := 999999, tags := [],
             connections := [], metadata := [] } ∧
    storeSize (add_context (add_context ([] : Store) 0 (pystr "a")
          (pystr "x") ContextType.task Priority.medium [] [] []).2 999999
        (pystr "b") (pystr "y") ContextType.task Priority.low [] []
        []).2 =
      storeSize (add_context ([] : Store) 0 (pystr "a") (pystr "x")
          ContextType.task Priority.medium [] [] []).2 :=
  add_same_second_collides [] 0 999999 (by decide) ContextType.task
    (pystr "a") (pystr "x") (pystr "b") (pystr "y") Priority.medium
    Priority.low [] [] [] [] [] []

theorem alookup_eq_none_of_not_mem {α β : Type} [DecidableEq α]
    (d : List (α × β)) (k : α) (h : k ∉ d.map Prod.fst) : alookup d k = none := by
  induction d with
  | nil => rfl
  | cons hd tl ih =>
      obtain ⟨k0, v0⟩ := hd
      simp only [List.map_cons, List.mem_cons] at h
      push_neg at h
      have hne : k0 ≠ k := fun e => h.1 e.symm
      simp only [alookup, if_neg hne]
      exact ih h.2

theorem alookup_dupdate_of_none {α β : Type} [DecidableEq α]
    (d m : List (α × β)) (k : α) (h : alookup m k = none) : alookup (dupdate d m) k = alookup d k := by
  induction m generalizing d with
  | nil => rfl
  | cons hd tl ih =>
      obtain ⟨k0, v0⟩ := hd
      by_cases h0 : k0 = k
      · simp [alookup, h0] at h
      · simp only [alookup, if_neg h0] at h
        show alookup (dupdate (dinsert d k0 v0) tl) k = alookup d k
        rw [ih (dinsert d k0 v0) h, alookup_dinsert_ne d k0 k v0 h0]

theorem alookup_dupdate_of_mem {α β : Type} [DecidableEq α]
    (d m : List (α × β)) (k : α) (v : β)
    (hm : (m.map Prod.fst).Nodup) (h : alookup m k = some v) :
    alookup (dupdate d m) k = some v := by
  induction m generalizing d with
  | nil => simp [alookup] at h
  | cons hd tl ih =>
      obtain ⟨k0, v0⟩ := hd
      simp only [List.map_cons, List.nodup_cons] at hm
      by_cases h0 : k0 = k
      · subst h0
        have hv : v0 = v := by simpa [alookup] using h
        subst hv
        show alookup (dupdate (dinsert d k0 v0) tl) k0 = some v0
        rw [alookup_dupdate_of_none (dinsert d k0 v0) tl k0
            (alookup_eq_none_of_not_mem tl k0 hm.1)]
        exact alookup_dinsert_self d k0 v0
      · simp only [alookup, if_neg h0] at h
        exact ih (dinsert d k0 v0) hm.2 h

/-- C5: updating an existing record with only a metadata mapping `m`
(whose keys, coming from a Python dict, are distinct) merges `m`
key-by-key into the record's metadata: every key of `m` is added or
overwritten with the value from `m`, every pre-existing key not in `m`
keeps its old value, the record stays at its key, and no other field
changes except `updated_at`, which becomes the update instant. -/
theorem update_metadata_merges (st : Store) (context_id : PyStr)
    (c : ContextItem) (m : PyDict Json) (now : Datetime)
    (hc : alookup st context_id = some c)
    (hm : (m.map Prod.fst).Nodup) :
    ∃ c1,
      (update_context st context_id none none none none none (some m)
          now).1 = some c1 ∧
      alookup (update_context st context_id none none none none none
          (some m) now).2 context_id = some c1 ∧
      (∀ k v, alookup m k = some v → alookup c1.metadata k = some v) ∧
      (∀ k, alookup m k = none →
        alookup c1.metadata k = alookup c.metadata k) ∧
      c1.id = c.id ∧ c1.type = c.type ∧ c1.title = c.title ∧
      c1.content = c.content ∧ c1.priority = c.priority ∧
      c1.tags = c.tags ∧ c1.connections = c.connections ∧
      c1.created_at = c.created_at ∧ c1.updated_at = now := by
  simp only [update_context, hc]
  refine ⟨_, rfl, alookup_dinsert_self _ _ _, ?_, ?_, rfl, rfl, rfl, rfl,
    rfl, rfl, rfl, rfl, rfl⟩
  · intro k v hk
    exact alookup_dupdate_of_mem c.metadata m k v hm hk
  · intro k hk
    exact alookup_dupdate_of_none c.metadata m k hk

/-- Witness for C5 at concrete inputs: a one-record store whose record
holds metadata keys "a" and "b"; updating with metadata mapping
`{"b": "3", "c": "4"}` merges as claimed. -/
theorem update_metadata_merges_witness :
    ∃ c1,
      (update_context [(pystr "task_0",
          { id := pystr "task_0", type := ContextType.task,
            title := pystr "t", content := pystr "c",
            priority := Priority.medium, created_at := 0,
            updated_at := 0, tags := [], connections := [],
            metadata := [(pystr "a", Json.str (pystr "1")),
              (pystr "b", Json.str (pystr "2"))] })]
          (pystr "task_0") none none none none none
          (some [(pystr "b", Json.str (pystr "3")),
            (pystr "c", Json.str (pystr "4"))]) 7).1 = some c1 ∧
      alookup (update_context [(pystr "task_0",
          { id := pystr "task_0", type := ContextType.task,
            title := pystr "t", content := pystr "c",
            priority := Priority.medium, created_at := 0,
            updated_at := 0, tags := [], connections := [],
            metadata := [(pystr "a", Json.str (pystr "1")),
              (pystr "b", Json.str (pystr "2"))] })]
          (pystr "task_0") none none none none none
          (some [(pystr "b", Json.str (pystr "3")),
            (pystr "c", Json.str (pystr "4"))]) 7).2 (pystr "task_0") =
        some c1 ∧
      (∀ k v, alookup [(pystr "b", Json.str (pystr "3")),
          (pystr "c", Json.str (pystr "4"))] k = some v →
        alookup c1.metadata k = some v) ∧
      (∀ k, alookup [(pystr "b", Json.str (pystr "3")),
          (pystr "c", Json.str (pystr "4"))] k = none →
        alookup c1.metadata k =
          alookup [(pystr "a", Json.str (pystr "1")),
            (pystr "b", Json.str (pystr "2"))] k) ∧
      c1.id = pystr "task_0" ∧ c1.type = ContextType.task ∧
      c1.title = pystr "t" ∧ c1.content = pystr "c" ∧
      c1.priority = Priority.medium ∧ c1.tags = [] ∧
      c1.connections = [] ∧ c1.created_at = 0 ∧ c1.updated_at = 7 :=
  update_metadata_merges _ (pystr "task_0")
    { id := pystr "task_0", type := ContextType.task,
      title := pystr "t", content := pystr "c",
      priority := Priority.medium, created_at := 0, updated_at := 0,
      tags := [], connections := [],
      metadata := [(pystr "a", Json.str (pystr "1")),
        (pystr "b", Json.str (pystr "2"))] }
    [(pystr "b", Json.str (pystr "3")),
      (pystr "c", Json.str (pystr "4"))] 7 (by rfl) (by decide)

theorem alookup_dinsert {α β : Type} [DecidableEq α]
    (d : List (α × β)) (key k : α) (v : β) :
    alookup (dinsert d key v) k =
      if key = k then some v else alookup d k := by
  by_cases h : key = k
  · subst h
    rw [if_pos rfl]
    exact alookup_dinsert_self d key v
  · rw [if_neg h]
    exact alookup_dinsert_ne d key k v h

/-- States reachable from a fresh empty store through the two mutating
tools, under a wall clock that never runs backwards: `Reachable st t`
means `st` arises from some sequence of `add_context` and
`update_context` calls whose (non-decreasing) timestamps are all at most
`t`. -/
inductive Reachable : Store → Datetime → Prop where
  | init : Reachable [] 0
  | add (st : Store) (t t1 : Datetime) (title content : PyStr)
      (context_type : ContextType) (priority : Priority)
      (tags connections : List PyStr) (metadata : PyDict Json)
      (hr : Reachable st t) (ht : t ≤ t1) :
      Reachable (add_context st t1 title content context_type priority
        tags connections metadata).2 t1
  | upd (st : Store) (t t1 : Datetime) (context_id : PyStr)
      (title content : Option PyStr) (priority : Option Priority)
      (tags connections : Option (List PyStr))
      (metadata : Option (PyDict Json))
      (hr : Reachable st t) (ht : t ≤ t1) :
      Reachable (update_context st context_id title content priority
        tags connections metadata t1).2 t1

theorem reachable_bounds (st : Store) (t : Datetime)
    (h : Reachable st t) :
    ∀ k c, alookup st k = some c →
      c.created_at ≤ c.updated_at ∧ c.updated_at ≤ t := by
  induction h with
  | init =>
      intro k c hk
      simp [alookup] at hk
  | add st t t1 title content context_type priority tags connections
      metadata hr ht ih =>
      intro k c hk
      simp only [add_context] at hk
      rw [alookup_dinsert] at hk
      by_cases hkey : mkContextId context_type t1 = k
      · rw [if_pos hkey] at hk
        cases hk
        exact ⟨le_refl _, le_refl _⟩
      · rw [if_neg hkey] at hk
        obtain ⟨h1, h2⟩ := ih k c hk
        exact ⟨h1, h2.trans ht⟩
  | upd st t t1 context_id title content priority tags connections
      metadata hr ht ih =>
      intro k c hk
      cases halk : alookup st context_id with
      | none =>
          simp only [update_context, halk] at hk
          obtain ⟨h1, h2⟩ := ih k c hk
          exact ⟨h1, h2.trans ht⟩
      | some c0 =>
          simp only [update_context, halk] at hk
          rw [alookup_dinsert] at hk
          by_cases hkey : context_id = k
          · rw [if_pos hkey] at hk
            cases hk
            obtain ⟨h1, h2⟩ := ih context_id c0 halk
            exact ⟨(h1.trans h2).trans ht, le_refl _⟩
          · rw [if_neg hkey] at hk
            obtain ⟨h1, h2⟩ := ih k c hk
            exact ⟨h1, h2.trans ht⟩

/-- C7: in every store state reachable by any sequence of add and update
operations under a non-decreasing clock, every record satisfies
`updated_at ≥ created_at`; and `update_context` (the only mutating
operation other than record creation) never changes a stored record's
key, `id` field or `created_at`: every record present before an update
is still there at its key afterwards with the same `id` and
`created_at`. -/
theorem reachable_timestamp_invariant (st : Store) (t : Datetime)
    (hr : Reachable st t) :
    (∀ k c, alookup st k = some c → c.created_at ≤ c.updated_at) ∧
    (∀ context_id title content priority tags connections metadata now
        k c, alookup st k = some c →
      ∃ c1, alookup (update_context st context_id title content priority
          tags connections metadata now).2 k = some c1 ∧
        c1.id = c.id ∧ c1.created_at = c.created_at) := by
  constructor
  · intro k c hk
    exact (reachable_bounds st t hr k c hk).1
  · intro context_id title content priority tags connections metadata
      now k c hk
    cases halk : alookup st context_id with
    | none =>
        simp only [update_context, halk]
        exact ⟨c, hk, rfl, rfl⟩
    | some c0 =>
        simp only [update_context, halk]
        rw [alookup_dinsert]
        by_cases hkey : context_id = k
        · subst hkey
          rw [halk] at hk
          cases hk
          exact ⟨_, if_pos rfl, rfl, rfl⟩
        · rw [if_neg hkey]
          exact ⟨c, hk, rfl, rfl⟩

/-- Witness for C7: a concrete reachable state (one `add_context` of a
task at instant 5, from the empty store) satisfies the invariant. -/
theorem reachable_timestamp_invariant_witness :
    (∀ k c, alookup (add_context ([] : Store) 5 (pystr "a") (pystr "b")
        ContextType.task Priority.high [] [] []).2 k = some c →
      c.created_at ≤ c.updated_at) ∧
    (∀ context_id title content priority tags connections metadata now
        k c, alookup (add_context ([] : Store) 5 (pystr "a") (pystr "b")
          ContextType.task Priority.high [] [] []).2 k = some c →
      ∃ c1, alookup (update_context (add_context ([] : Store) 5
            (pystr "a") (pystr "b") ContextType.task Priority.high [] []
            []).2 context_id title content priority tags connections
          metadata now).2 k = some c1 ∧
        c1.id = c.id ∧ c1.created_at = c.created_at) :=
  reachable_timestamp_invariant _ 5
    (Reachable.add [] 0 5 (pystr "a") (pystr "b") ContextType.task
      Priority.high [] [] [] Reachable.init (Nat.zero_le 5))

/-- Option-valued map over a list, failing when any element fails (a
Python comprehension whose body may raise an exception). -/
def optMap {α β : Type} (f : α → Option β) : List α → Option (List β)
  | [] => some []
  | a :: l =>
      match f a with
      | none => none
      | some b =>
          match optMap f l with
          | none => none
          | some bl => some (b :: bl)

theorem charDigit_digitChar (d : Nat) (h : d < 10) :
    charDigit (digitChar d) = some d := by
  interval_cases d <;> decide

theorem optMap_charDigit_map (ds : List Nat) (h : ∀ d ∈ ds, d < 10) :
    optMap charDigit (ds.map digitChar) = some ds := by
  induction ds with
  | nil => rfl
  | cons d ds ih =>
      have hd : charDigit (digitChar d) = some d :=
        charDigit_digitChar d (h d (by simp))
      have ht : optMap charDigit (ds.map digitChar) = some ds :=
        ih fun x hx => h x (by simp [hx])
      simp [optMap, hd, ht]

/-- Modelled `datetime.isoformat` on an aware UTC instant: an injective
decimal rendering of the microsecond count.  All the claims use of the
ISO-8601 string is that `fromisoformat` inverts it exactly (Python
guarantees `fromisoformat(d.isoformat()) == d`), so the calendar layout
is elided. -/
def isoformat (t : Datetime) : PyStr := natChars t

/-- Modelled `datetime.fromisoformat`: parse the decimal rendering back;
`none` models the `ValueError` raised on a malformed string. -/
def fromisoformat (s : PyStr) : Option Datetime :=
  match optMap charDigit s with
  | none => none
  | some ds => some (Nat.ofDigits 10 ds.reverse)

theorem natDigitsRev_go_eq_digits (fuel m : Nat) (h : m ≤ fuel) :
    natDigitsRev.go fuel m = Nat.digits 10 m := by
  induction fuel generalizing m with
  | zero =>
      interval_cases m
      simp [natDigitsRev.go]
  | succ fuel ih =>
      by_cases hm : m = 0
      · simp [natDigitsRev.go, hm]
      · have hdiv : m / 10 ≤ fuel := by
          have := Nat.div_lt_self (Nat.pos_of_ne_zero hm)
            (by norm_num : 1 < 10)
          omega
        rw [natDigitsRev.go, if_neg hm, ih (m / 10) hdiv,
          Nat.digits_def' (by norm_num : 1 < 10) (Nat.pos_of_ne_zero hm)]

theorem natDigitsRev_eq_digits (n : Nat) :
    natDigitsRev n = Nat.digits 10 n :=
  natDigitsRev_go_eq_digits n n (le_refl n)

theorem fromisoformat_isoformat (t : Datetime) :
    fromisoformat (isoformat t) = some t := by
  unfold fromisoformat isoformat natChars
  rw [natDigitsRev_eq_digits]
  rw [optMap_charDigit_map _ fun d hd =>
    Nat.digits_lt_base (by norm_num) (List.mem_reverse.mp hd)]
  simp [Nat.ofDigits_digits]

/-- `ContextItem.to_dict`: `asdict(self)` with the two datetimes replaced
by their `isoformat` strings; the `str`-subclassing enum members are
written by `json.dump` as their value strings.  Keys in dataclass field
order. -/
def to_dict (c : ContextItem) : Json :=
  Json.obj
    [(pystr "id", Json.str c.id),
     (pystr "type", Json.str c.type.value),
     (pystr "title", Json.str c.title),
     (pystr "content", Json.str c.content),
     (pystr "priority", Json.str c.priority.value),
     (pystr "created_at", Json.str (isoformat c.created_at)),
     (pystr "updated_at", Json.str (isoformat c.updated_at)),
     (pystr "tags", Json.arr (c.tags.map Json.str)),
     (pystr "connections", Json.arr (c.connections.map Json.str)),
     (pystr "metadata", Json.obj c.metadata)]

/-- Read a JSON string, the shape `from_dict` needs for text fields. -/
def asStr : Json → Option PyStr
  | .str s => some s
  | _ => none

/-- Read a JSON array of strings. -/
def asStrList : Json → Option (List PyStr)
  | .arr xs => optMap asStr xs
  | _ => none

/-- Read a JSON object, as a Python dict. -/
def asObj : Json → Option (PyDict Json)
  | .obj d => some d
  | _ => none

/-- Read an ISO-8601 timestamp string. -/
def asDatetime : Json → Option Datetime
  | .str s => fromisoformat s
  | _ => none

/-- The ten field names of the `ContextItem` dataclass. -/
def fieldNames : List PyStr :=
  [pystr "id", pystr "type", pystr "title", pystr "content",
   pystr "priority", pystr "created_at", pystr "updated_at",
   pystr "tags", pystr "connections", pystr "metadata"]

/-- `ContextItem.from_dict`: parse the two timestamps with
`fromisoformat` and the two enums with their constructors, then
`cls(**data)`, which fails unless the keys are exactly the dataclass
fields; `none` models any raised exception.  A Python dataclass does
not check the remaining annotations at runtime; the model takes the
declared field types (which everything written by `to_dict` satisfies)
as the data contract. -/
def from_dict (j : Json) : Option ContextItem :=
  match j with
  | .obj d =>
      if d.all fun kv => decide (kv.1 ∈ fieldNames) then
        Option.bind ((alookup d (pystr "id")).bind asStr) fun i =>
        Option.bind (((alookup d (pystr "type")).bind asStr).bind
          ContextType.ofValue) fun ty =>
        Option.bind ((alookup d (pystr "title")).bind asStr) fun ti =>
        Option.bind ((alookup d (pystr "content")).bind asStr) fun co =>
        Option.bind (((alookup d (pystr "priority")).bind asStr).bind
          Priority.ofValue) fun pr =>
        Option.bind ((alookup d (pystr "created_at")).bind asDatetime)
          fun ca =>
        Option.bind ((alookup d (pystr "updated_at")).bind asDatetime)
          fun ua =>
        Option.bind ((alookup d (pystr "tags")).bind asStrList) fun tg =>
        Option.bind ((alookup d (pystr "connections")).bind asStrList)
          fun cn =>
        Option.bind ((alookup d (pystr "metadata")).bind asObj) fun md =>
        some { id := i, type := ty, title := ti, content := co,
               priority := pr, created_at := ca, updated_at := ua,
               tags := tg, connections := cn, metadata := md }
      else none
  | _ => none

theorem ctype_ofValue_value (t : ContextType) :
    ContextType.ofValue t.value = some t := by
  cases t <;> rfl

theorem priority_ofValue_value (p : Priority) :
    Priority.ofValue p.value = some p := by
  cases p <;> rfl

theorem optMap_asStr_map (l : List PyStr) :
    optMap asStr (l.map Json.str) = some l := by
  induction l with
  | nil => rfl
  | cons s l ih => simp [optMap, asStr, ih]

theorem from_dict_to_dict (c : ContextItem) :
    from_dict (to_dict c) = some c := by
  obtain ⟨i, ty, ti, co, pr, ca, ua, tg, cn, md⟩ := c
  simp [from_dict, to_dict, alookup, asStr, asDatetime, asStrList, asObj,
    fromisoformat_isoformat, ctype_ofValue_value,
    priority_ofValue_value, optMap_asStr_map, fieldNames, pystr]

/-- `ContextManager.save_contexts`: the JSON object written to disk,
keyed by record ID, each value the fully serialized record (`json.dump`
followed by `json.load` is modelled as the identity on this tree). -/
def save_contexts (st : Store) : Json :=
  Json.obj (st.map fun kv => (kv.1, to_dict kv.2))

/-- The dict comprehension of `load_contexts` over the parsed JSON:
`none` models any exception it raises (top level not an object, or a
record `from_dict` rejects). -/
def parseStore (j : Json) : Option Store :=
  match j with
  | .obj d =>
      optMap (fun kv => (from_dict kv.2).map fun c => (kv.1, c)) d
  | _ => none

/-- The backing file as `load_contexts` sees it: absent, unreadable as
JSON text, or a parsed JSON value. -/
inductive FileState where
  | missing
  | malformed
  | content (j : Json)

/-- `ContextManager.load_contexts`, run during construction: an absent
file leaves the empty mapping from `__init__`; a `json.load` error or a
comprehension error is caught and leaves the empty mapping; otherwise
the parsed store is installed. -/
def load_contexts (f : FileState) : Store :=
  match f with
  | .missing => []
  | .malformed => []
  | .content j => (parseStore j).getD []

theorem optMap_save (st : Store) :
    optMap (fun kv => (from_dict kv.2).map fun c => (kv.1, c))
      (st.map fun kv => (kv.1, to_dict kv.2)) = some st := by
  induction st with
  | nil => rfl
  | cons hd tl ih =>
      obtain ⟨k, c⟩ := hd
      simp [optMap, from_dict_to_dict, ih]

theorem parseStore_save (st : Store) :
    parseStore (save_contexts st) = some st := by
  simpa [parseStore, save_contexts] using optMap_save st

/-- C2: serializing the store to disk and then loading a fresh store
instance from that file yields a mapping equal, record for record and
field for field, to the one before serialization — the timestamps come
back at full microsecond precision, so in particular to the second. -/
theorem save_load_roundtrip (st : Store) :
    load_contexts (FileState.content (save_contexts st)) = st := by
  simp [load_contexts, parseStore_save]

/-- C8: store construction never fails: a missing backing file starts
the store with the empty mapping, a file that is not readable as JSON
falls back to the empty mapping, and a parsed JSON value on which
deserialization fails for any reason (top level not an object, unknown
type or priority value, unparseable timestamp, missing or extra record
fields) also falls back to the empty mapping. -/
theorem construction_never_fails (j : Json)
    (hfail : parseStore j = none) :
    load_contexts FileState.missing = [] ∧
    load_contexts FileState.malformed = [] ∧
    load_contexts (FileState.content j) = [] := by
  refine ⟨rfl, rfl, ?_⟩
  simp [load_contexts, hfail]

/-- Witness for C8 at a concrete input: a JSON object whose single
record value is `null` cannot be deserialized, and construction falls
back to the empty mapping. -/
theorem construction_never_fails_witness :
    parseStore (Json.obj [(pystr "task_1", Json.null)]) = none ∧
    load_contexts FileState.missing = [] ∧
    load_contexts FileState.malformed = [] ∧
    load_contexts
      (FileState.content (Json.obj [(pystr "task_1", Json.null)])) =
      [] :=
  ⟨rfl, construction_never_fails (Json.obj [(pystr "task_1", Json.null)])
    rfl⟩

/-- The aggregate data rendered by `get_context_stats` when the store is
non-empty: total, the two counting dicts, and title plus `updated_at` of
the up-to-three most recently updated records.  (The source prints the
counting dicts sorted by key name; that ordering is presentation only —
the mapping contents are what the claims are about.) -/
structure ContextStats where
  total : Nat
  typeCounts : PyDict Nat
  priorityCounts : PyDict Nat
  recent : List (PyStr × Datetime)

/-- The counting loops of `get_context_stats`:
`counts[key] = counts.get(key, 0) + 1` over the records in order. -/
def countBy (key : ContextItem → PyStr) (l : List ContextItem) :
    PyDict Nat :=
  l.foldl (fun acc c =>
    dinsert acc (key c) ((alookup acc (key c)).getD 0 + 1)) []

/-- The `get_context_stats` tool: `none` models the early
"Context store is empty" message; otherwise the totals and the three
most recent records.  The function's only input is the in-memory store;
it touches no file. -/
def get_context_stats (st : Store) : Option ContextStats :=
  let contexts := st.map Prod.snd
  if contexts.isEmpty then none
  else some
    { total := contexts.length,
      typeCounts := countBy (fun c => c.type.value) contexts,
      priorityCounts := countBy (fun c => c.priority.value) contexts,
      recent := ((sortDesc contexts).take 3).map fun c =>
        (c.title, c.updated_at) }

theorem alookup_countFold (key : ContextItem → PyStr)
    (l : List ContextItem) (acc : PyDict Nat) (k : PyStr) :
    alookup (l.foldl (fun a c =>
        dinsert a (key c) ((alookup a (key c)).getD 0 + 1)) acc) k =
      if (l.filter fun c => decide (key c = k)).length = 0 then
        alookup acc k
      else
        some ((alookup acc k).getD 0 +
          (l.filter fun c => decide (key c = k)).length) := by
  induction l generalizing acc with
  | nil => simp
  | cons c l ih =>
      by_cases hkc : key c = k
      · have hfe : List.filter (fun x => decide (key x = k)) (c :: l) =
            c :: List.filter (fun x => decide (key x = k)) l := by
          simp [List.filter_cons, hkc]
        have hself : alookup (dinsert acc (key c)
            ((alookup acc (key c)).getD 0 + 1)) k =
            some ((alookup acc k).getD 0 + 1) := by
          subst hkc
          exact alookup_dinsert_self acc (key c) _
        rw [List.foldl_cons, ih, hfe, hself]
        by_cases hl :
            (List.filter (fun x => decide (key x = k)) l).length = 0
        · simp [hl]
        · have h1 : ¬(c :: List.filter (fun x =>
              decide (key x = k)) l).length = 0 := by
            simp
          rw [if_neg hl, if_neg h1]
          simp only [Option.getD_some, List.length_cons]
          congr 1
          omega
      · have hfe : List.filter (fun x => decide (key x = k)) (c :: l) =
            List.filter (fun x => decide (key x = k)) l := by
          simp [List.filter_cons, hkc]
        have hne : alookup (dinsert acc (key c)
            ((alookup acc (key c)).getD 0 + 1)) k = alookup acc k :=
          alookup_dinsert_ne acc (key c) k _ hkc
        rw [List.foldl_cons, ih, hfe, hne]

theorem alookup_countBy (key : ContextItem → PyStr)
    (l : List ContextItem) (k : PyStr) :
    alookup (countBy key l) k =
      if (l.filter fun c => decide (key c = k)).length = 0 then none
      else some ((l.filter fun c => decide (key c = k)).length) := by
  unfold countBy
  rw [alookup_countFold]
  by_cases hl : (l.filter fun c => decide (key c = k)).length = 0
  · simp [hl, alookup]
  · simp [hl, alookup]

theorem ctype_value_injective :
    ∀ a b : ContextType, a.value = b.value ↔ a = b := by
  decide

theorem priority_value_injective :
    ∀ a b : Priority, a.value = b.value ↔ a = b := by
  decide

/-- Counterexample to C9 as stated: on the empty store
`get_context_stats` short-circuits to the "Context store is empty"
message (modelled `none`) instead of returning a report carrying the
total record count zero and the (empty) per-type and per-priority
counts, so the claim's "for every store state" fails at the empty
store. -/
theorem get_context_stats_empty_store :
    get_context_stats [] = none := rfl

/-- C9 (amended): for every NON-empty store state, `get_context_stats`
returns the total record count, a count of records per type, a count of
records per priority, and the titles and timestamps of the three most
recently updated records in descending `updated_at` order (fewer when
the store holds fewer), all computed purely from the in-memory mapping,
which is its only input. -/
theorem get_context_stats_correct (st : Store) (hne : st ≠ []) :
    ∃ s, get_context_stats st = some s ∧
      s.total = storeSize st ∧
      (∀ t : ContextType, alookup s.typeCounts t.value =
        (if ((st.map Prod.snd).filter fun c =>
              decide (c.type = t)).length = 0 then none
         else some (((st.map Prod.snd).filter fun c =>
              decide (c.type = t)).length))) ∧
      (∀ p : Priority, alookup s.priorityCounts p.value =
        (if ((st.map Prod.snd).filter fun c =>
              decide (c.priority = p)).length = 0 then none
         else some (((st.map Prod.snd).filter fun c =>
              decide (c.priority = p)).length))) ∧
      (∃ l, List.Perm l (st.map Prod.snd) ∧
        l.Pairwise (fun a b => b.updated_at ≤ a.updated_at) ∧
        s.recent = (l.take 3).map fun c => (c.title, c.updated_at)) := by
  have hne2 : (st.map Prod.snd).isEmpty = false := by
    cases st with
    | nil => exact absurd rfl hne
    | cons hd tl => rfl
  refine ⟨{ total := (st.map Prod.snd).length,
            typeCounts :=
              countBy (fun c => c.type.value) (st.map Prod.snd),
            priorityCounts :=
              countBy (fun c => c.priority.value) (st.map Prod.snd),
            recent := ((sortDesc (st.map Prod.snd)).take 3).map fun c =>
              (c.title, c.updated_at) }, ?_, ?_, ?_, ?_, ?_⟩
  · simp only [get_context_stats, hne2, Bool.false_eq_true, if_false]
  · simp [storeSize]
  · intro t
    show alookup (countBy (fun c => c.type.value) (st.map Prod.snd))
        t.value = _
    rw [alookup_countBy]
    have hfeq : ∀ c : ContextItem,
        decide (c.type.value = t.value) = decide (c.type = t) := by
      intro c
      simp [ctype_value_injective c.type t]
    rw [List.filter_congr fun c _ => hfeq c]
  · intro p
    show alookup (countBy (fun c => c.priority.value) (st.map Prod.snd))
        p.value = _
    rw [alookup_countBy]
    have hfeq : ∀ c : ContextItem,
        decide (c.priority.value = p.value) =
          decide (c.priority = p) := by
      intro c
      simp [priority_value_injective c.priority p]
    rw [List.filter_congr fun c _ => hfeq c]
  · exact ⟨sortDesc (st.map Prod.snd), perm_sortDesc _,
      sorted_sortDesc _, rfl⟩

/-- Concrete two-record store used by the C9 witness: one high-priority
task updated at 9 and one medium decision updated at 4. -/
def statsWitnessStore : Store :=
  [(pystr "task_1",
    { id := pystr "task_1", type := ContextType.task,
      title := pystr "t1", content := pystr "x",
      priority := Priority.high, created_at := 0, updated_at := 9,
      tags := [], connections := [], metadata := [] }),
   (pystr "decision_2",
    { id := pystr "decision_2", type := ContextType.decision,
      title := pystr "t2", content := pystr "y",
      priority := Priority.medium, created_at := 1, updated_at := 4,
      tags := [], connections := [], metadata := [] })]

/-- Witness for the amended C9 at the concrete two-record store. -/
theorem get_context_stats_correct_witness :
    ∃ s, get_context_stats statsWitnessStore = some s ∧
      s.total = storeSize statsWitnessStore ∧
      (∀ t : ContextType, alookup s.typeCounts t.value =
        (if ((statsWitnessStore.map Prod.snd).filter fun c =>
              decide (c.type = t)).length = 0 then none
         else some (((statsWitnessStore.map Prod.snd).filter fun c =>
              decide (c.type = t)).length))) ∧
      (∀ p : Priority, alookup s.priorityCounts p.value =
        (if ((statsWitnessStore.map Prod.snd).filter fun c =>
              decide (c.priority = p)).length = 0 then none
         else some (((statsWitnessStore.map Prod.snd).filter fun c =>
              decide (c.priority = p)).length))) ∧
      (∃ l, List.Perm l (statsWitnessStore.map Prod.snd) ∧
        l.Pairwise (fun a b => b.updated_at ≤ a.updated_at) ∧
        s.recent = (l.take 3).map fun c => (c.title, c.updated_at)) :=
  get_context_stats_correct statsWitnessStore
    (by simp [statsWitnessStore])

/-- A heap address of a Python dict object. -/
abbrev Ref := Nat

/-- `ContextItem` under object semantics: `metadata` holds the ADDRESS
of a dict object.  Python dataclass fields hold references, and
`metadata` is the only field the code ever mutates in place
(`context.metadata.update(metadata)` in `update_context`), so it is the
one field modelled by address; `tags` and `connections` are only ever
rebound, never mutated, and stay values. -/
structure RContextItem where
  id : PyStr
  type : ContextType
  title : PyStr
  content : PyStr
  priority : Priority
  created_at : Datetime
  updated_at : Datetime
  tags : List PyStr
  connections : List PyStr
  metadata : Ref

/-- The object state of the running module: the dict heap, a fresh
address counter, the address of the single dict created when
`def add_context` executed its default argument `metadata={}`, and the
store.  Python evaluates default-argument expressions once, at function
definition time; every call that omits `metadata` receives that same
object. -/
structure PyState where
  heap : List (Ref × PyDict Json)
  nextRef : Ref
  defaultMeta : Ref
  contexts : List (PyStr × RContextItem)

/-- Module load: empty store, one shared default dict `{}` at address
0. -/
def initState : PyState :=
  { heap := [(0, [])], nextRef := 1, defaultMeta := 0, contexts := [] }

/-- `add_context` under object semantics.  `none` for `metadata` means
the argument was omitted: the record then stores the shared default
dict's address.  An explicit argument is a dict freshly built by the
caller, modelled as a fresh allocation. -/
def add_context_obj (s : PyState) (now : Datetime)
    (title content : PyStr) (context_type : ContextType)
    (priority : Priority) (tags connections : List PyStr)
    (metadata : Option (PyDict Json)) : PyStr × PyState :=
  let context_id := mkContextId context_type now
  match metadata with
  | some m =>
      let item : RContextItem :=
        { id := context_id, type := context_type, title := title,
          content := content, priority := priority, created_at := now,
          updated_at := now, tags := tags, connections := connections,
          metadata := s.nextRef }
      (context_id,
       { s with heap := dinsert s.heap s.nextRef m,
                nextRef := s.nextRef + 1,
                contexts := dinsert s.contexts context_id item })
  | none =>
      let item : RContextItem :=
        { id := context_id, type := context_type, title := title,
          content := content, priority := priority, created_at := now,
          updated_at := now, tags := tags, connections := connections,
          metadata := s.defaultMeta }
      (context_id,
       { s with contexts := dinsert s.contexts context_id item })

/-- `update_context` under object semantics:
`context.metadata.update(metadata)` mutates the dict object at the
record's address, whoever else holds that address. -/
def update_context_obj (s : PyState) (context_id : PyStr)
    (title content : Option PyStr) (priority : Option Priority)
    (tags connections : Option (List PyStr))
    (metadata : Option (PyDict Json)) (now : Datetime) :
    Option RContextItem × PyState :=
  match alookup s.contexts context_id with
  | none => (none, s)
  | some c =>
      let heap1 :=
        match metadata with
        | some m =>
            dinsert s.heap c.metadata
              (dupdate ((alookup s.heap c.metadata).getD []) m)
        | none => s.heap
      let c1 : RContextItem :=
        { c with
          title := title.getD c.title,
          content := content.getD c.content,
          priority := priority.getD c.priority,
          tags := tags.getD c.tags,
          connections := connections.getD c.connections,
          updated_at := now }
      (some c1,
       { s with heap := heap1,
                contexts := dinsert s.contexts context_id c1 })

/-- Dereference a record's metadata dict. -/
def readMetadata (s : PyState) (c : RContextItem) : PyDict Json :=
  (alookup s.heap c.metadata).getD []

/-- The two-add scenario: record A added at instant 0 and record B at
instant 1000000 (the next wall-clock second, so the IDs differ), both
of type task and both with the `metadata` argument omitted. -/
def stateAB : PyState :=
  (add_context_obj (add_context_obj initState 0 (pystr "a") (pystr "x")
      ContextType.task Priority.medium [] [] none).2 1000000 (pystr "b")
    (pystr "y") ContextType.task Priority.medium [] [] none).2

/-- The ID of scenario record A. -/
def idA : PyStr := mkContextId ContextType.task 0

/-- The ID of scenario record B. -/
def idB : PyStr := mkContextId ContextType.task 1000000

/-- The scenario state after updating ONLY record A with metadata
`{"k": "v"}` at instant 2000000. -/
def stateAfterUpdateA : PyState :=
  (update_context_obj stateAB idA none none none none none
    (some [(pystr "k", Json.str (pystr "v"))]) 2000000).2

/-- C10 fails on the code: `add_context`'s `metadata={}` default is one
dict object created when the function was defined, so records created
with `metadata` omitted all share that dict, and
`context.metadata.update(...)` inside `update_context` mutates the
shared object.  Concretely: A and B are distinct records added with
`metadata` omitted; before any update B's metadata reads as the empty
dict, and after a successful update naming only A with `{"k": "v"}`,
B's metadata reads as `{"k": "v"}` as well — a record other than the
updated one changed. -/
theorem update_mutates_sibling_metadata :
    idA ≠ idB ∧
    (alookup stateAB.contexts idB).map (readMetadata stateAB) =
      some [] ∧
    (alookup stateAfterUpdateA.contexts idB).map
        (readMetadata stateAfterUpdateA) =
      some [(pystr "k", Json.str (pystr "v"))] ∧
    (alookup stateAfterUpdateA.contexts idA).map
        (readMetadata stateAfterUpdateA) =
      some [(pystr "k", Json.str (pystr "v"))] :=
  ⟨by decide, rfl, rfl, rfl⟩

/-- The pollution scenario for the omitted-metadata default: add record
A with `metadata` omitted at second 0, update A with metadata
`{"k": "v"}` at second 1 (merged in place into the shared default
dict), then add record C with `metadata` omitted at second 2.  No
update ever names C. -/
def statePolluted : PyState :=
  (add_context_obj (update_context_obj (add_context_obj initState 0
        (pystr "a") (pystr "x") ContextType.task Priority.medium [] []
        none).2 idA none none none none none
      (some [(pystr "k", Json.str (pystr "v"))]) 1000000).2 2000000
    (pystr "c") (pystr "z") ContextType.task Priority.medium [] []
    none).2

/-- The ID of the pollution scenario's record C. -/
def idC : PyStr := mkContextId ContextType.task 2000000

/-- C1 fails on the code at its omission clause: `metadata={}` in
`add_context` is one dict object created when the function was defined,
so once an in-place metadata update has polluted it, a NEW record
created with `metadata` omitted starts with the polluted contents, not
the empty mapping.  Concretely, in the pollution scenario: C's ID is
fresh (distinct from A's); `get_details` on it returns title, content,
type, priority, tags and connections equal to C's creation inputs; but
C's metadata reads as `{"k": "v"}`, which is not the empty mapping,
although C was created with `metadata` omitted and never updated. -/
theorem add_omitted_metadata_polluted :
    idC ≠ idA ∧
    (alookup statePolluted.contexts idC).map
        (fun c => (c.title, c.content, c.type, c.priority, c.tags,
          c.connections)) =
      some (pystr "c", pystr "z", ContextType.task, Priority.medium,
        [], []) ∧
    (alookup statePolluted.contexts idC).map
        (readMetadata statePolluted) =
      some [(pystr "k", Json.str (pystr "v"))] ∧
    some [(pystr "k", Json.str (pystr "v"))] ≠
      some ([] : PyDict Json) :=
  ⟨by decide, rfl, rfl, by simp⟩

end CtxMgr
